import Mathlib

/-!
Shallow embedding of the BLE rotary-encoder firmware (src/old.c) and proofs
about it.  Pure C functions become Lean functions; the stateful GATT server
(static globals driven by stack callbacks and the polling main loop) becomes
explicit state passing over a record of the globals.  Machine bytes are `Nat`
values reduced mod 256 where the C code reads a `uint8_t`.
-/

namespace BleEncoder

/-! ### Constants (old.c lines 49-61) -/

def GREEN_ZONE_MIN : Int := -5

def GREEN_ZONE_MAX : Int := 5

def YELLOW_ZONE_MIN : Int := -10

def YELLOW_ZONE_MAX : Int := 10

def CHAR_VALUE_MAX_LEN : Nat := 20

/-! ### Zone classifier (old.c lines 256-274) -/

/-- Mirrors the C enum encoder_zone_t. -/
inductive encoder_zone_t where
  | ZONE_GREEN
  | ZONE_YELLOW
  | ZONE_RED
deriving DecidableEq

/-- Mirrors get_zone_for_position (old.c lines 264-274). -/
def get_zone_for_position (position : Int) : encoder_zone_t :=
  if position ≥ GREEN_ZONE_MIN ∧ position ≤ GREEN_ZONE_MAX then
    .ZONE_GREEN
  else if (position > GREEN_ZONE_MAX ∧ position ≤ YELLOW_ZONE_MAX) ∨
      (position < GREEN_ZONE_MIN ∧ position ≥ YELLOW_ZONE_MIN) then
    .ZONE_YELLOW
  else
    .ZONE_RED

/-! ### LED colors (old.c lines 113-149) -/

/-- Mirrors the C struct led_color_t. -/
structure led_color_t where
  red : Bool
  green : Bool
  blue : Bool
deriving DecidableEq

def LED_GREEN : led_color_t := ⟨false, true, false⟩

def LED_YELLOW : led_color_t := ⟨true, true, false⟩

def LED_RED : led_color_t := ⟨true, false, false⟩

/-- Mirrors get_led_color_for_position (old.c lines 139-149). -/
def get_led_color_for_position (position : Int) : led_color_t :=
  if position ≥ GREEN_ZONE_MIN ∧ position ≤ GREEN_ZONE_MAX then
    LED_GREEN
  else if (position > GREEN_ZONE_MAX ∧ position ≤ YELLOW_ZONE_MAX) ∨
      (position < GREEN_ZONE_MIN ∧ position ≥ YELLOW_ZONE_MIN) then
    LED_YELLOW
  else
    LED_RED

/-! ### Global server state -/

/-- The four stack-assigned attribute handles, in table order: service
declaration, characteristic declaration, characteristic value, CCCD
(old.c line 67, gatt_handle_table). -/
structure GattHandleTable where
  h0 : Nat
  h1 : Nat
  h2 : Nat
  h3 : Nat
deriving DecidableEq

/-- The static globals of old.c gathered into one record:
connection_established (line 63), notifications_enabled (line 64),
ble_service_started (line 65), gatt_handle_table (line 67),
notify_conn_id and notify_gatts_if (lines 80-81), previous_zone (line 262,
the C sentinel -1 is modelled as none), char_value (the stored
characteristic value buffer, line 71).  start_requested is a ghost flag
recording that esp_ble_gatts_start_service was called (line 544); the stack
only delivers ESP_GATTS_START_EVT after that call. -/
structure SysState where
  connection_established : Bool
  notifications_enabled : Bool
  ble_service_started : Bool
  start_requested : Bool
  gatt_handle_table : GattHandleTable
  notify_conn_id : Nat
  notify_gatts_if : Nat
  previous_zone : Option encoder_zone_t
  char_value : List Nat
deriving DecidableEq

/-- Initial values of the globals (all flags false, handle table zeroed,
previous_zone invalid, characteristic value one zero byte). -/
def initial_state : SysState :=
  ⟨false, false, false, false, ⟨0, 0, 0, 0⟩, 0, 0, none, [0x00]⟩

/-- The esp_err_t values that occur in this program, plus a generic stack
failure used to model an arbitrary esp_ble_gatts_send_indicate outcome. -/
inductive esp_err_t where
  | ESP_OK
  | ESP_ERR_INVALID_ARG
  | ESP_ERR_INVALID_STATE
  | ESP_FAIL
deriving DecidableEq

/-! ### Notification dispatcher (old.c lines 232-254) -/

/-- Mirrors send_ble_notification (old.c lines 232-254).  The C value
pointer is modelled as the byte list it points at (the null check collapses
onto the empty-buffer check); stack_ret is the result the stack returns
from esp_ble_gatts_send_indicate when it is reached.  The second component
is the frame handed to the stack: some bytes exactly when the stack-level
transmit call is made, none when a guard returned early. -/
def send_ble_notification (st : SysState) (value : List Nat) (len : Nat)
    (stack_ret : esp_err_t) : esp_err_t × Option (List Nat) :=
  if value.length = 0 ∨ len = 0 ∨ len > CHAR_VALUE_MAX_LEN then
    (.ESP_ERR_INVALID_ARG, none)
  else if st.notifications_enabled = false ∨ st.connection_established = false then
    (.ESP_ERR_INVALID_STATE, none)
  else if st.notify_gatts_if = 0 ∨ st.gatt_handle_table.h2 = 0 then
    (.ESP_ERR_INVALID_STATE, none)
  else
    (stack_ret, some (value.take len))

/-- The switch in poll_encoder_state (old.c lines 290-303) choosing the
one-byte notification code for a zone. -/
def zone_notification_val : encoder_zone_t → Nat
  | .ZONE_GREEN => 0x02
  | .ZONE_YELLOW => 0x03
  | .ZONE_RED => 0x01

/-- Observable output of one call to poll_encoder_state: the frame handed
to the stack transmit call (if any) and whether the caller escalated the
send result with an error log (old.c lines 306-308). -/
structure PollOutput where
  frame : Option (List Nat)
  error_logged : Bool
deriving DecidableEq

/-- Mirrors poll_encoder_state (old.c lines 277-316): classify the position,
and on a zone change with the service started, update previous_zone first
and then attempt the notification; the caller logs only results that are
neither ESP_OK nor ESP_ERR_INVALID_STATE. -/
def poll_encoder_state (st : SysState) (position : Int) (stack_ret : esp_err_t) :
    SysState × PollOutput :=
  if some (get_zone_for_position position) ≠ st.previous_zone ∧
      st.ble_service_started = true then
    ({ st with previous_zone := some (get_zone_for_position position) },
     ⟨(send_ble_notification
         { st with previous_zone := some (get_zone_for_position position) }
         [zone_notification_val (get_zone_for_position position)] 1 stack_ret).2,
      decide
        ((send_ble_notification
            { st with previous_zone := some (get_zone_for_position position) }
            [zone_notification_val (get_zone_for_position position)] 1 stack_ret).1 ≠
            esp_err_t.ESP_OK ∧
          (send_ble_notification
            { st with previous_zone := some (get_zone_for_position position) }
            [zone_notification_val (get_zone_for_position position)] 1 stack_ret).1 ≠
            esp_err_t.ESP_ERR_INVALID_STATE)⟩)
  else
    (st, ⟨none, false⟩)

/-- Repeated polling at a constant position; one stack outcome per poll.
Collects the frames handed to the stack, in order. -/
def pollRepeat : List esp_err_t → SysState → Int → SysState × List (List Nat)
  | [], st, _ => (st, [])
  | r :: rs, st, p =>
    ((pollRepeat rs (poll_encoder_state st p r).1 p).1,
     (poll_encoder_state st p r).2.frame.toList ++
       (pollRepeat rs (poll_encoder_state st p r).1 p).2)

/-! ### GATT event handler (old.c lines 484-621) -/

/-- The fields of the write event parameter that the handler reads
(param write, old.c lines 578-606). -/
structure WriteEvt where
  handle : Nat
  len : Nat
  value : List Nat
  need_rsp : Bool
deriving DecidableEq

/-- The GATT status codes the handler responds with. -/
inductive GattStatus where
  | ESP_GATT_OK
  | ESP_GATT_INVALID_ATTR_LEN
deriving DecidableEq

/-- A response sent via esp_ble_gatts_send_response: status and the bytes
placed in the response attribute value (empty for the NULL write responses). -/
structure GattResponse where
  status : GattStatus
  value : List Nat
deriving DecidableEq

/-- The stack events the handler cases on (old.c switch, lines 489-620);
unlisted events fall through to the default no-op arm. -/
inductive GattsEvent where
  | CREAT_ATTR_TAB (status_ok : Bool) (num_handle : Nat) (handles : GattHandleTable)
  | START
  | READ (handle : Nat)
  | CONNECT (conn_id : Nat)
  | WRITE (w : WriteEvt)
  | DISCONNECT
deriving DecidableEq

/-- Stack interactions one handler invocation performs: the response it
sends (if any), whether it called esp_ble_gatts_start_service, and whether
it called esp_ble_gap_start_advertising. -/
structure EventOutput where
  response : Option GattResponse
  start_service : Bool
  start_advertising : Bool
deriving DecidableEq

def noOutput : EventOutput := ⟨none, false, false⟩

/-- The 16-bit little-endian read of the first two CCCD bytes
(old.c line 593: value[1] shifted left 8, or-ed with value[0]); each C read
of a uint8_t is a value below 256, hence the mod. -/
def le16 (bytes : List Nat) : Nat :=
  (bytes.getD 1 0 % 256) * 256 + bytes.getD 0 0 % 256

/-- Mirrors gatts_event_handler (old.c lines 484-621), one event at a time.
CREAT_ATTR_TAB (lines 528-545): on failure status or a handle count other
than 4, break without touching state; on success store the handles and
request service start.  START (lines 557-561) sets ble_service_started.
READ (lines 547-555) answers OK with the single byte 0x00.  CONNECT
(lines 563-576) records conn_id and the interface and marks the connection
established.  WRITE (lines 578-606): oversize writes are answered with
ESP_GATT_INVALID_ATTR_LEN when a response is requested and change nothing;
a 2-byte write to the CCCD handle flips notifications_enabled per the
little-endian value; every non-oversize write is answered OK when a
response is requested.  DISCONNECT (lines 608-616) clears the connection
fields and restarts advertising. -/
def gatts_event_handler (st : SysState) (gatts_if : Nat) (ev : GattsEvent) :
    SysState × EventOutput :=
  match ev with
  | .CREAT_ATTR_TAB status_ok num_handle handles =>
    if status_ok = false then
      (st, noOutput)
    else if num_handle ≠ 4 then
      (st, noOutput)
    else
      ({ st with gatt_handle_table := handles, start_requested := true },
       ⟨none, true, false⟩)
  | .START =>
    ({ st with ble_service_started := true }, noOutput)
  | .READ _ =>
    (st, ⟨some ⟨.ESP_GATT_OK, [0x00]⟩, false, false⟩)
  | .CONNECT conn_id =>
    ({ st with notify_conn_id := conn_id, notify_gatts_if := gatts_if,
               connection_established := true },
     noOutput)
  | .WRITE w =>
    if w.len > CHAR_VALUE_MAX_LEN then
      (st, ⟨if w.need_rsp then some ⟨.ESP_GATT_INVALID_ATTR_LEN, []⟩ else none,
            false, false⟩)
    else
      (if w.handle = st.gatt_handle_table.h3 ∧ w.len = 2 then
         if le16 w.value = 0x0001 then
           { st with notifications_enabled := true }
         else if le16 w.value = 0x0000 then
           { st with notifications_enabled := false }
         else
           st
       else
         st,
       ⟨if w.need_rsp then some ⟨.ESP_GATT_OK, []⟩ else none, false, false⟩)
  | .DISCONNECT =>
    ({ st with connection_established := false, notifications_enabled := false,
               notify_conn_id := 0, notify_gatts_if := 0 },
     ⟨none, false, true⟩)

/-! ### The ConnectionTracker view of the two connection flags -/

/-- The ConnectionTracker states named by the specification. -/
inductive ConnState where
  | Disconnected
  | Connected
  | Subscribed
deriving DecidableEq

/-- The tracker state determined by the two flags connection_established
and notifications_enabled of old.c. -/
def connState (st : SysState) : ConnState :=
  if st.connection_established = false then .Disconnected
  else if st.notifications_enabled = true then .Subscribed
  else .Connected

/-! ### Whole-system traces -/

/-- One step of the whole system: either a stack callback into
gatts_event_handler or one main-loop call to poll_encoder_state. -/
inductive SysEvent where
  | gatts (gatts_if : Nat) (ev : GattsEvent)
  | poll (position : Int) (stack_ret : esp_err_t)
deriving DecidableEq

/-- State transition plus the frame (if any) the step transmits. -/
def stepFrames (st : SysState) (e : SysEvent) : SysState × Option (List Nat) :=
  match e with
  | .gatts gi ev => ((gatts_event_handler st gi ev).1, none)
  | .poll p r => ((poll_encoder_state st p r).1, (poll_encoder_state st p r).2.frame)

/-- Run a list of steps, collecting every transmitted frame in order. -/
def runTrace : List SysEvent → SysState → SysState × List (List Nat)
  | [], st => (st, [])
  | e :: es, st =>
    ((runTrace es (stepFrames st e).1).1,
     (stepFrames st e).2.toList ++ (runTrace es (stepFrames st e).1).2)

/-- Stack-consistency of one event: ESP_GATTS_START_EVT is a completion
callback, so it may occur only once esp_ble_gatts_start_service has been
called (tracked by the ghost flag start_requested); every other event is
unconstrained. -/
def eventAllowed (st : SysState) : SysEvent → Bool
  | .gatts _ .START => st.start_requested
  | _ => true

/-- Stack-consistency of a whole trace from a given state. -/
def validFrom : List SysEvent → SysState → Bool
  | [], _ => true
  | e :: es, st => eventAllowed st e && validFrom es (stepFrames st e).1

/-- An attribute-table-created event that reports failure or a handle count
different from 4; other events are unconstrained. -/
def attrTabBad : SysEvent → Bool
  | .gatts _ (.CREAT_ATTR_TAB status_ok num_handle _) =>
    !status_ok || num_handle != 4
  | _ => true

/-! ### Helper lemmas about the dispatcher and the poll loop -/

lemma option_toList_length_le {α : Type} (o : Option α) : o.toList.length ≤ 1 := by
  cases o <;> simp

lemma poll_skip (st : SysState) (p : Int) (r : esp_err_t)
    (h : ¬(some (get_zone_for_position p) ≠ st.previous_zone ∧
        st.ble_service_started = true)) :
    poll_encoder_state st p r = (st, ⟨none, false⟩) := by
  unfold poll_encoder_state
  exact if_neg h

lemma poll_fire (st : SysState) (p : Int) (r : esp_err_t)
    (h : some (get_zone_for_position p) ≠ st.previous_zone ∧
        st.ble_service_started = true) :
    poll_encoder_state st p r =
      ({ st with previous_zone := some (get_zone_for_position p) },
       ⟨(send_ble_notification
           { st with previous_zone := some (get_zone_for_position p) }
           [zone_notification_val (get_zone_for_position p)] 1 r).2,
        decide
          ((send_ble_notification
              { st with previous_zone := some (get_zone_for_position p) }
              [zone_notification_val (get_zone_for_position p)] 1 r).1 ≠
              esp_err_t.ESP_OK ∧
            (send_ble_notification
              { st with previous_zone := some (get_zone_for_position p) }
              [zone_notification_val (get_zone_for_position p)] 1 r).1 ≠
              esp_err_t.ESP_ERR_INVALID_STATE)⟩) := by
  unfold poll_encoder_state
  exact if_pos h

lemma send_not_ready (st : SysState) (value : List Nat) (len : Nat)
    (r : esp_err_t) (hv : value.length ≠ 0) (h0 : len ≠ 0)
    (hm : len ≤ CHAR_VALUE_MAX_LEN)
    (h : st.notifications_enabled = false ∨ st.connection_established = false ∨
        st.notify_gatts_if = 0 ∨ st.gatt_handle_table.h2 = 0) :
    send_ble_notification st value len r = (.ESP_ERR_INVALID_STATE, none) := by
  unfold send_ble_notification
  rw [if_neg (by push_neg; exact ⟨hv, h0, by omega⟩)]
  rcases h with h | h | h | h
  · rw [if_pos (Or.inl h)]
  · rw [if_pos (Or.inr h)]
  · by_cases h2 : st.notifications_enabled = false ∨
        st.connection_established = false
    · rw [if_pos h2]
    · rw [if_neg h2, if_pos (Or.inl h)]
  · by_cases h2 : st.notifications_enabled = false ∨
        st.connection_established = false
    · rw [if_pos h2]
    · rw [if_neg h2, if_pos (Or.inr h)]

lemma send_ready (st : SysState) (v : Nat) (r : esp_err_t)
    (he : st.notifications_enabled = true) (hc : st.connection_established = true)
    (hi : st.notify_gatts_if ≠ 0) (hh : st.gatt_handle_table.h2 ≠ 0) :
    send_ble_notification st [v] 1 r = (r, some [v]) := by
  unfold send_ble_notification
  rw [if_neg (by simp [CHAR_VALUE_MAX_LEN]), if_neg (by simp [he, hc]),
    if_neg (by simp [hi, hh])]
  rfl

lemma pollRepeat_stable (rs : List esp_err_t) (p : Int) :
    ∀ st : SysState,
      st.previous_zone = some (get_zone_for_position p) ∨
        st.ble_service_started = false →
      pollRepeat rs st p = (st, []) := by
  induction rs with
  | nil => intro st _; rfl
  | cons r rs ih =>
    intro st h
    have hc : ¬(some (get_zone_for_position p) ≠ st.previous_zone ∧
        st.ble_service_started = true) := by
      rcases h with h | h
      · exact fun hcon => hcon.1 h.symm
      · exact fun hcon => by rw [h] at hcon; exact absurd hcon.2 (by decide)
    simp [pollRepeat, poll_skip st p r hc, ih st h]

lemma poll_ready_fires (st : SysState) (p : Int) (r : esp_err_t)
    (he : st.notifications_enabled = true) (hc : st.connection_established = true)
    (hi : st.notify_gatts_if ≠ 0) (hh : st.gatt_handle_table.h2 ≠ 0)
    (hs : st.ble_service_started = true)
    (hz : some (get_zone_for_position p) ≠ st.previous_zone) :
    ∀ rs : List esp_err_t,
      (pollRepeat (r :: rs) st p).2 =
        [[zone_notification_val (get_zone_for_position p)]] := by
  intro rs
  have hfire := poll_fire st p r ⟨hz, hs⟩
  have hsend := send_ready
    { st with previous_zone := some (get_zone_for_position p) }
    (zone_notification_val (get_zone_for_position p)) r he hc hi hh
  have hstable := pollRepeat_stable rs p
    { st with previous_zone := some (get_zone_for_position p) } (Or.inl rfl)
  simp only [pollRepeat, hfire, hsend, hstable]
  simp

lemma connState_subscribed_iff (st : SysState) :
    connState st = .Subscribed ↔
      st.connection_established = true ∧ st.notifications_enabled = true := by
  cases hc : st.connection_established <;> cases hn : st.notifications_enabled <;>
    simp [connState, hc, hn]

/-! ### Claim C1: the zone classifier -/

/-- Claim C1: the zone classifier is a total, deterministic pure function of
the integer position (it is a Lean function, hence total and deterministic
by construction): for every position p it returns Green exactly when
-5 ≤ p ≤ 5, Yellow exactly when 5 < p ≤ 10 or -10 ≤ p < -5, and Red
otherwise; in particular classify(5)=Green, classify(6)=Yellow,
classify(10)=Yellow, classify(11)=Red, classify(-10)=Yellow,
classify(-11)=Red. -/
theorem claim_C1_zone_classifier :
    ∀ p : Int,
      (get_zone_for_position p = .ZONE_GREEN ↔ -5 ≤ p ∧ p ≤ 5) ∧
      (get_zone_for_position p = .ZONE_YELLOW ↔
        (5 < p ∧ p ≤ 10) ∨ (-10 ≤ p ∧ p < -5)) ∧
      (get_zone_for_position p = .ZONE_RED ↔ 10 < p ∨ p < -10) ∧
      get_zone_for_position 5 = .ZONE_GREEN ∧
      get_zone_for_position 6 = .ZONE_YELLOW ∧
      get_zone_for_position 10 = .ZONE_YELLOW ∧
      get_zone_for_position 11 = .ZONE_RED ∧
      get_zone_for_position (-10) = .ZONE_YELLOW ∧
      get_zone_for_position (-11) = .ZONE_RED := by
  intro p
  refine ⟨?_, ?_, ?_, by decide, by decide, by decide, by decide, by decide,
    by decide⟩ <;>
  · unfold get_zone_for_position
    unfold GREEN_ZONE_MIN GREEN_ZONE_MAX YELLOW_ZONE_MIN YELLOW_ZONE_MAX
    split_ifs with h1 h2 <;> simp_all <;> omega

/-! ### Claim C10: the LED color and the zone implement the same partition -/

/-- Claim C10: for every integer position p, the LED color selected for p
agrees with the zone classification of p: get_led_color_for_position
returns LED_GREEN exactly when the zone is Green, LED_YELLOW exactly when
the zone is Yellow, and LED_RED exactly when the zone is Red. -/
theorem claim_C10_led_matches_zone :
    ∀ p : Int,
      (get_led_color_for_position p = LED_GREEN ↔
        get_zone_for_position p = .ZONE_GREEN) ∧
      (get_led_color_for_position p = LED_YELLOW ↔
        get_zone_for_position p = .ZONE_YELLOW) ∧
      (get_led_color_for_position p = LED_RED ↔
        get_zone_for_position p = .ZONE_RED) := by
  intro p
  unfold get_led_color_for_position get_zone_for_position
  split_ifs <;> refine ⟨?_, ?_, ?_⟩ <;> decide

/-! ### Claim C9: read requests -/

/-- Claim C9: every read request, on any handle, succeeds with an OK status
and returns a single-byte response of value 0x00, and leaves the whole
server state (in particular connection identity and subscription flag)
unchanged. -/
theorem claim_C9_read_echo :
    ∀ (st : SysState) (gi h : Nat),
      gatts_event_handler st gi (.READ h) =
        (st, ⟨some ⟨.ESP_GATT_OK, [0x00]⟩, false, false⟩) := by
  intro st gi h
  rfl

/-! ### Claim C2: edge-triggered notification, update before the send -/

/-- Claim C2: on every poll, previous_zone is updated to the newly
classified zone at the moment the send decision is made (zone change with
the service started), regardless of the transmission outcome; consequently
polling a constant position repeatedly, under any sequence of stack
outcomes (including failed sends), hands at most one frame to the stack. -/
theorem claim_C2_edge_triggered :
    ∀ (st : SysState) (p : Int) (rs : List esp_err_t),
      ((pollRepeat rs st p).2).length ≤ 1 ∧
      (∀ r : esp_err_t,
        some (get_zone_for_position p) ≠ st.previous_zone →
        st.ble_service_started = true →
        (poll_encoder_state st p r).1.previous_zone =
          some (get_zone_for_position p)) := by
  intro st p rs
  constructor
  · induction rs generalizing st with
    | nil => simp [pollRepeat]
    | cons r rs ih =>
      by_cases h : some (get_zone_for_position p) ≠ st.previous_zone ∧
          st.ble_service_started = true
      · have hstable := pollRepeat_stable rs p
          { st with previous_zone := some (get_zone_for_position p) } (Or.inl rfl)
        simp only [pollRepeat, poll_fire st p r h, hstable]
        simpa using option_toList_length_le
          (send_ble_notification
            { st with previous_zone := some (get_zone_for_position p) }
            [zone_notification_val (get_zone_for_position p)] 1 r).2
      · simp only [pollRepeat, poll_skip st p r h]
        simpa using ih st
  · intro r h1 h2
    rw [poll_fire st p r ⟨h1, h2⟩]

/-- Witness for claim C2 at concrete inputs: a ready, subscribed server
polled three times at position 7, the first send failing at the stack;
only the first poll transmits, and previous_zone is updated on it. -/
theorem claim_C2_edge_triggered_witness :
    ((pollRepeat [.ESP_FAIL, .ESP_OK, .ESP_OK]
        ⟨true, true, true, true, ⟨1, 2, 3, 4⟩, 5, 1, none, [0x00]⟩ 7).2).length ≤ 1 ∧
    (poll_encoder_state
        ⟨true, true, true, true, ⟨1, 2, 3, 4⟩, 5, 1, none, [0x00]⟩ 7
        .ESP_FAIL).1.previous_zone = some (get_zone_for_position 7) := by
  have h := claim_C2_edge_triggered
    ⟨true, true, true, true, ⟨1, 2, 3, 4⟩, 5, 1, none, [0x00]⟩ 7
    [.ESP_FAIL, .ESP_OK, .ESP_OK]
  exact ⟨h.1, h.2 .ESP_FAIL (by decide) rfl⟩

/-! ### Claim C3: notifications gated on subscription and a valid handle -/

/-- Claim C3: whenever the ConnectionTracker is not in the Subscribed state
or the characteristic value handle is zero, a poll makes no stack-level
transmit call and escalates nothing, and the dispatcher itself answers any
well-formed request with the explicit not-ready result
ESP_ERR_INVALID_STATE, which the polling caller silently discards. -/
theorem claim_C3_not_ready_gating :
    ∀ (st : SysState) (p : Int) (r : esp_err_t),
      connState st ≠ .Subscribed ∨ st.gatt_handle_table.h2 = 0 →
      (poll_encoder_state st p r).2.frame = none ∧
      (poll_encoder_state st p r).2.error_logged = false ∧
      (∀ (value : List Nat) (len : Nat),
        value.length ≠ 0 → len ≠ 0 → len ≤ CHAR_VALUE_MAX_LEN →
        send_ble_notification st value len r =
          (.ESP_ERR_INVALID_STATE, none)) := by
  intro st p r h
  have hnr : st.notifications_enabled = false ∨
      st.connection_established = false ∨
      st.notify_gatts_if = 0 ∨ st.gatt_handle_table.h2 = 0 := by
    rcases h with h | h
    · have hns : ¬(st.connection_established = true ∧
          st.notifications_enabled = true) :=
        fun hcn => h ((connState_subscribed_iff st).mpr hcn)
      cases hc : st.connection_established with
      | false => exact Or.inr (Or.inl rfl)
      | true =>
        cases hn : st.notifications_enabled with
        | false => exact Or.inl rfl
        | true => exact absurd ⟨hc, hn⟩ hns
    · exact Or.inr (Or.inr (Or.inr h))
  have hpoll : (poll_encoder_state st p r).2.frame = none ∧
      (poll_encoder_state st p r).2.error_logged = false := by
    by_cases hc : some (get_zone_for_position p) ≠ st.previous_zone ∧
        st.ble_service_started = true
    · have hs := send_not_ready
        { st with previous_zone := some (get_zone_for_position p) }
        [zone_notification_val (get_zone_for_position p)] 1 r
        (by simp) one_ne_zero (by decide) hnr
      rw [poll_fire st p r hc]
      simp [hs]
    · rw [poll_skip st p r hc]
      exact ⟨rfl, rfl⟩
  exact ⟨hpoll.1, hpoll.2,
    fun value len hv h0 hm => send_not_ready st value len r hv h0 hm hnr⟩

/-- Witness for claim C3 at concrete inputs: a connected but unsubscribed
server never reaches the transmit call on a zone change and the dispatcher
answers not-ready. -/
theorem claim_C3_not_ready_gating_witness :
    (poll_encoder_state
        ⟨true, false, true, true, ⟨1, 2, 3, 4⟩, 5, 1, none, [0x00]⟩ 7
        .ESP_OK).2.frame = none ∧
    send_ble_notification
        ⟨true, false, true, true, ⟨1, 2, 3, 4⟩, 5, 1, none, [0x00]⟩ [0x03] 1
        .ESP_OK = (.ESP_ERR_INVALID_STATE, none) := by
  have h := claim_C3_not_ready_gating
    ⟨true, false, true, true, ⟨1, 2, 3, 4⟩, 5, 1, none, [0x00]⟩ 7 .ESP_OK
    (Or.inl (by decide))
  exact ⟨h.1, h.2.2 [0x03] 1 (by decide) (by decide) (by decide)⟩

/-! ### Concrete states used by witnesses -/

/-- A connected, subscribed server with a valid handle table and the
service started. -/
def sample_ready_state : SysState :=
  ⟨true, true, true, true, ⟨1, 2, 3, 4⟩, 5, 1, none, [0x00]⟩

/-- A connected but unsubscribed server with a valid handle table and the
service started. -/
def sample_connected_state : SysState :=
  ⟨true, false, true, true, ⟨1, 2, 3, 4⟩, 5, 1, none, [0x00]⟩

/-! ### Claim C4: CCCD writes drive the subscription state -/

/-- Claim C4: a 2-byte characteristic write to the CCCD handle with
little-endian value 0x0001 moves the ConnectionTracker to Subscribed
(notifications enabled), value 0x0000 moves it back to Connected
(notifications disabled), and any other 2-byte value changes no state; the
write is accepted, the only response the handler ever sends for it being
the success status (sent exactly when the write requests a response, as an
ATT write command carries no response channel). -/
theorem claim_C4_cccd_write :
    ∀ (st : SysState) (gi : Nat) (w : WriteEvt),
      st.connection_established = true →
      w.handle = st.gatt_handle_table.h3 →
      w.len = 2 →
      (le16 w.value = 0x0001 →
        connState (gatts_event_handler st gi (.WRITE w)).1 = .Subscribed) ∧
      (le16 w.value = 0x0000 →
        connState (gatts_event_handler st gi (.WRITE w)).1 = .Connected) ∧
      (le16 w.value ≠ 0x0000 → le16 w.value ≠ 0x0001 →
        (gatts_event_handler st gi (.WRITE w)).1 = st) ∧
      (gatts_event_handler st gi (.WRITE w)).2.response =
        (if w.need_rsp then some ⟨.ESP_GATT_OK, []⟩ else none) := by
  intro st gi w hconn hh hlen
  have hnot : ¬(w.len > CHAR_VALUE_MAX_LEN) := by rw [hlen]; decide
  have hcc : w.handle = st.gatt_handle_table.h3 ∧ w.len = 2 := ⟨hh, hlen⟩
  refine ⟨?_, ?_, ?_, ?_⟩
  · intro h1
    simp only [gatts_event_handler]
    rw [if_neg hnot, if_pos hcc, if_pos h1]
    simp [connState, hconn]
  · intro h0
    simp only [gatts_event_handler]
    rw [if_neg hnot, if_pos hcc, if_neg (by rw [h0]; decide), if_pos h0]
    simp [connState, hconn]
  · intro h0 h1
    simp only [gatts_event_handler]
    rw [if_neg hnot, if_pos hcc, if_neg h1, if_neg h0]
  · simp only [gatts_event_handler]
    rw [if_neg hnot]

/-- Witness for claim C4 at concrete inputs: on a connected server with
CCCD handle 4, the three kinds of 2-byte CCCD writes behave as claimed. -/
theorem claim_C4_cccd_write_witness :
    connState (gatts_event_handler sample_connected_state 1
        (.WRITE ⟨4, 2, [0x01, 0x00], true⟩)).1 = .Subscribed ∧
    connState (gatts_event_handler sample_connected_state 1
        (.WRITE ⟨4, 2, [0x00, 0x00], true⟩)).1 = .Connected ∧
    (gatts_event_handler sample_connected_state 1
        (.WRITE ⟨4, 2, [0x07, 0x00], true⟩)).1 = sample_connected_state ∧
    (gatts_event_handler sample_connected_state 1
        (.WRITE ⟨4, 2, [0x07, 0x00], true⟩)).2.response =
      some ⟨.ESP_GATT_OK, []⟩ := by
  refine ⟨(claim_C4_cccd_write sample_connected_state 1
      ⟨4, 2, [0x01, 0x00], true⟩ rfl rfl rfl).1 (by decide),
    (claim_C4_cccd_write sample_connected_state 1
      ⟨4, 2, [0x00, 0x00], true⟩ rfl rfl rfl).2.1 (by decide),
    (claim_C4_cccd_write sample_connected_state 1
      ⟨4, 2, [0x07, 0x00], true⟩ rfl rfl rfl).2.2.1 (by decide) (by decide),
    ?_⟩
  have h := (claim_C4_cccd_write sample_connected_state 1
    ⟨4, 2, [0x07, 0x00], true⟩ rfl rfl rfl).2.2.2
  simpa using h

/-! ### Claim C5: one-byte frames with fixed zone codes -/

/-- Claim C5: every frame handed to the stack by the poll loop is exactly
one byte, carrying the fixed code of the newly classified zone (Red=0x01,
Green=0x02, Yellow=0x03); and on a ready server, a CCCD write of 0x0001
followed by polling a position in a new zone hands exactly one frame to
the stack, carrying the code of the new zone. -/
theorem claim_C5_one_byte_frames :
    ∀ (st : SysState) (p : Int) (r : esp_err_t),
      (∀ f : List Nat,
        (poll_encoder_state st p r).2.frame = some f →
        f = [zone_notification_val (get_zone_for_position p)] ∧ f.length = 1) ∧
      zone_notification_val .ZONE_RED = 0x01 ∧
      zone_notification_val .ZONE_GREEN = 0x02 ∧
      zone_notification_val .ZONE_YELLOW = 0x03 ∧
      (∀ (gi : Nat) (w : WriteEvt) (rs : List esp_err_t),
        st.connection_established = true →
        st.ble_service_started = true →
        st.notify_gatts_if ≠ 0 →
        st.gatt_handle_table.h2 ≠ 0 →
        w.handle = st.gatt_handle_table.h3 →
        w.len = 2 →
        le16 w.value = 0x0001 →
        some (get_zone_for_position p) ≠ st.previous_zone →
        (pollRepeat (r :: rs) (gatts_event_handler st gi (.WRITE w)).1 p).2 =
          [[zone_notification_val (get_zone_for_position p)]]) := by
  intro st p r
  refine ⟨?_, rfl, rfl, rfl, ?_⟩
  · intro f hf
    by_cases hc : some (get_zone_for_position p) ≠ st.previous_zone ∧
        st.ble_service_started = true
    · rw [poll_fire st p r hc] at hf
      unfold send_ble_notification at hf
      split_ifs at hf <;> simp_all
      subst hf
      rfl
    · rw [poll_skip st p r hc] at hf
      exact absurd hf (by simp)
  · intro gi w rs hconn hstart hgi hh2 hwh hwlen hv hzone
    have hst1 : (gatts_event_handler st gi (.WRITE w)).1 =
        { st with notifications_enabled := true } := by
      simp only [gatts_event_handler]
      rw [if_neg (by rw [hwlen]; decide), if_pos ⟨hwh, hwlen⟩, if_pos hv]
    rw [hst1]
    exact poll_ready_fires { st with notifications_enabled := true } p r
      rfl hconn hgi hh2 hstart hzone rs

/-- Witness for claim C5 at concrete inputs: with the handle table
⟨1,2,3,4⟩, subscribing via the CCCD and polling position 7 (Yellow) hands
the stack exactly the one-byte frame 0x03. -/
theorem claim_C5_one_byte_frames_witness :
    (pollRepeat [esp_err_t.ESP_OK]
        (gatts_event_handler sample_connected_state 1
          (.WRITE ⟨4, 2, [0x01, 0x00], true⟩)).1 7).2 = [[0x03]] ∧
    ([0x03] : List Nat) = [zone_notification_val (get_zone_for_position 7)] ∧
    ([0x03] : List Nat).length = 1 := by
  have h := claim_C5_one_byte_frames sample_connected_state 7 .ESP_OK
  have hframe := h.2.2.2.2 1 ⟨4, 2, [0x01, 0x00], true⟩ [] rfl rfl
    (by decide) (by decide) rfl rfl (by decide) (by decide)
  have hready := claim_C5_one_byte_frames sample_ready_state 7 .ESP_OK
  refine ⟨by simpa using hframe, ?_, by decide⟩
  exact ((hready.1 [0x03]) (by decide)).1

/-! ### Claim C6: oversize writes are rejected without mutation -/

/-- Claim C6: a characteristic write longer than 20 bytes is rejected and
mutates nothing: the whole server state, in particular connection
identity, subscription flag and the stored characteristic value, is
unchanged, and the only response the handler ever sends for it is the
explicit ESP_GATT_INVALID_ATTR_LEN status (sent exactly when the write
requests a response, as an ATT write command carries no response
channel). -/
theorem claim_C6_oversize_write :
    ∀ (st : SysState) (gi : Nat) (w : WriteEvt),
      w.len > CHAR_VALUE_MAX_LEN →
      gatts_event_handler st gi (.WRITE w) =
        (st, ⟨if w.need_rsp then some ⟨.ESP_GATT_INVALID_ATTR_LEN, []⟩ else none,
              false, false⟩) := by
  intro st gi w h
  simp only [gatts_event_handler]
  rw [if_pos h]

/-- Witness for claim C6 at a concrete input: a 21-byte write is answered
with ESP_GATT_INVALID_ATTR_LEN and leaves the state untouched. -/
theorem claim_C6_oversize_write_witness :
    gatts_event_handler sample_connected_state 1
        (.WRITE ⟨3, 21, List.replicate 21 0, true⟩) =
      (sample_connected_state,
       ⟨some ⟨.ESP_GATT_INVALID_ATTR_LEN, []⟩, false, false⟩) := by
  have h := claim_C6_oversize_write sample_connected_state 1
    ⟨3, 21, List.replicate 21 0, true⟩ (by decide)
  simpa using h

/-! ### Claim C7: disconnect cleanup and re-subscription -/

/-- Claim C7: a disconnect event clears every ConnectionTracker field
(connection identifier and stack interface reset to 0, subscription flag
false), moves the tracker to Disconnected and requests an advertising
restart; and from that clean state a subsequent connect plus CCCD
subscribe re-enables notifications: a zone change then hands the stack
exactly one frame again. -/
theorem claim_C7_disconnect_cleanup :
    ∀ (st : SysState) (gi gi2 conn_id : Nat) (w : WriteEvt) (p : Int)
      (r : esp_err_t),
      (gatts_event_handler st gi .DISCONNECT).1.connection_established = false ∧
      (gatts_event_handler st gi .DISCONNECT).1.notifications_enabled = false ∧
      (gatts_event_handler st gi .DISCONNECT).1.notify_conn_id = 0 ∧
      (gatts_event_handler st gi .DISCONNECT).1.notify_gatts_if = 0 ∧
      connState (gatts_event_handler st gi .DISCONNECT).1 = .Disconnected ∧
      (gatts_event_handler st gi .DISCONNECT).2.start_advertising = true ∧
      (gi2 ≠ 0 →
        st.ble_service_started = true →
        st.gatt_handle_table.h2 ≠ 0 →
        w.handle = st.gatt_handle_table.h3 →
        w.len = 2 →
        le16 w.value = 0x0001 →
        some (get_zone_for_position p) ≠ st.previous_zone →
        connState
          (gatts_event_handler
            (gatts_event_handler
              (gatts_event_handler st gi .DISCONNECT).1 gi2
              (.CONNECT conn_id)).1 gi2 (.WRITE w)).1 = .Subscribed ∧
        ∀ rs : List esp_err_t,
          (pollRepeat (r :: rs)
            (gatts_event_handler
              (gatts_event_handler
                (gatts_event_handler st gi .DISCONNECT).1 gi2
                (.CONNECT conn_id)).1 gi2 (.WRITE w)).1 p).2 =
            [[zone_notification_val (get_zone_for_position p)]]) := by
  intro st gi gi2 conn_id w p r
  refine ⟨rfl, rfl, rfl, rfl, rfl, rfl, ?_⟩
  intro hgi2 hstart hh2 hwh hwlen hv hzone
  have h1 : (gatts_event_handler st gi .DISCONNECT).1 =
      { st with connection_established := false, notifications_enabled := false,
                notify_conn_id := 0, notify_gatts_if := 0 } := rfl
  have h2 : (gatts_event_handler
      ({ st with connection_established := false, notifications_enabled := false,
                 notify_conn_id := 0, notify_gatts_if := 0 } : SysState) gi2
      (.CONNECT conn_id)).1 =
      { st with connection_established := true, notifications_enabled := false,
                notify_conn_id := conn_id, notify_gatts_if := gi2 } := rfl
  have h3 : (gatts_event_handler
      ({ st with connection_established := true, notifications_enabled := false,
                 notify_conn_id := conn_id, notify_gatts_if := gi2 } : SysState) gi2
      (.WRITE w)).1 =
      { st with connection_established := true, notifications_enabled := true,
                notify_conn_id := conn_id, notify_gatts_if := gi2 } := by
    simp only [gatts_event_handler]
    rw [if_neg (by rw [hwlen]; decide), if_pos ⟨hwh, hwlen⟩, if_pos hv]
  rw [h1, h2, h3]
  refine ⟨rfl, ?_⟩
  intro rs
  exact poll_ready_fires
    { st with connection_established := true, notifications_enabled := true,
              notify_conn_id := conn_id, notify_gatts_if := gi2 } p r
    rfl rfl hgi2 hh2 hstart hzone rs

/-- Witness for claim C7 at concrete inputs: disconnecting the ready
server clears the tracker and requests advertising, and a fresh connect
plus CCCD subscribe followed by a poll at position 11 (Red) transmits
exactly one frame again. -/
theorem claim_C7_disconnect_cleanup_witness :
    (gatts_event_handler sample_ready_state 1
        .DISCONNECT).1.connection_established = false ∧
    connState (gatts_event_handler sample_ready_state 1 .DISCONNECT).1 =
      .Disconnected ∧
    (gatts_event_handler sample_ready_state 1 .DISCONNECT).2.start_advertising =
      true ∧
    connState
      (gatts_event_handler
        (gatts_event_handler
          (gatts_event_handler sample_ready_state 1 .DISCONNECT).1 2
          (.CONNECT 6)).1 2 (.WRITE ⟨4, 2, [0x01, 0x00], true⟩)).1 =
      .Subscribed ∧
    (pollRepeat [esp_err_t.ESP_OK]
      (gatts_event_handler
        (gatts_event_handler
          (gatts_event_handler sample_ready_state 1 .DISCONNECT).1 2
          (.CONNECT 6)).1 2 (.WRITE ⟨4, 2, [0x01, 0x00], true⟩)).1 11).2 =
      [[zone_notification_val (get_zone_for_position 11)]] := by
  have h := claim_C7_disconnect_cleanup sample_ready_state 1 2 6
    ⟨4, 2, [0x01, 0x00], true⟩ 11 .ESP_OK
  have hs := h.2.2.2.2.2.2 (by decide) rfl (by decide) rfl rfl (by decide)
    (by decide)
  exact ⟨h.1, h.2.2.2.2.1, h.2.2.2.2.2.1, hs.1, hs.2 []⟩

/-! ### Claim C8: a bad attribute-table event disables the service forever -/

lemma c8_step_preserves (st : SysState) (e : SysEvent)
    (h1 : st.start_requested = false) (h2 : st.ble_service_started = false)
    (hb : attrTabBad e = true)
    (hv : eventAllowed st e = true) :
    (stepFrames st e).1.start_requested = false ∧
    (stepFrames st e).1.ble_service_started = false ∧
    (stepFrames st e).2 = none := by
  cases e with
  | gatts gi gev =>
    cases gev with
    | CREAT_ATTR_TAB ok n hs =>
      have hb2 : ok = false ∨ n ≠ 4 := by simpa [attrTabBad] using hb
      by_cases hok : ok = false
      · simp [stepFrames, gatts_event_handler, hok, h1, h2]
      · rcases hb2 with h | h
        · exact absurd h hok
        · simp [stepFrames, gatts_event_handler, hok, h, h1, h2]
    | START =>
      have hv2 : st.start_requested = true := hv
      rw [h1] at hv2
      exact absurd hv2 (by decide)
    | READ h => simp [stepFrames, gatts_event_handler, h1, h2]
    | CONNECT c => simp [stepFrames, gatts_event_handler, h1, h2]
    | WRITE w =>
      simp only [stepFrames, gatts_event_handler]
      split_ifs <;> simp [h1, h2]
    | DISCONNECT => simp [stepFrames, gatts_event_handler, h1, h2]
  | poll p r =>
    have hc : ¬(some (get_zone_for_position p) ≠ st.previous_zone ∧
        st.ble_service_started = true) := by
      rw [h2]
      simp
    simp [stepFrames, poll_skip st p r hc, h1, h2]

lemma c8_trace_invariant :
    ∀ (tr : List SysEvent) (st : SysState),
      st.start_requested = false →
      st.ble_service_started = false →
      validFrom tr st = true →
      (∀ e ∈ tr, attrTabBad e = true) →
      (runTrace tr st).1.start_requested = false ∧
      (runTrace tr st).1.ble_service_started = false ∧
      (runTrace tr st).2 = [] := by
  intro tr
  induction tr with
  | nil => intro st h1 h2 _ _; exact ⟨h1, h2, rfl⟩
  | cons e es ih =>
    intro st h1 h2 hv hb
    have hv2 : eventAllowed st e = true ∧
        validFrom es (stepFrames st e).1 = true := by
      simpa [validFrom, Bool.and_eq_true] using hv
    have hstep := c8_step_preserves st e h1 h2 (hb e (List.mem_cons_self e es))
      hv2.1
    have hrest := ih (stepFrames st e).1 hstep.1 hstep.2.1 hv2.2
      (fun x hx => hb x (List.mem_cons_of_mem e hx))
    simp only [runTrace]
    exact ⟨hrest.1, hrest.2.1, by rw [hstep.2.2]; simpa using hrest.2.2⟩

/-- Claim C8: starting from the initial state, along any stack-consistent
trace (a service-started callback only after a service start was
requested) in which every attribute-table-created event reports a failure
status or a handle count other than 4, the service is never started and no
notification frame is ever handed to the stack; moreover such a bad event
is a pure no-op of the handler: the state is unchanged and no stack action
(no service start, no advertising change) is requested, so the process
keeps running and advertising as before. -/
theorem claim_C8_bad_attr_tab :
    ∀ tr : List SysEvent,
      validFrom tr initial_state = true →
      (∀ e ∈ tr, attrTabBad e = true) →
      (runTrace tr initial_state).1.ble_service_started = false ∧
      (runTrace tr initial_state).2 = [] ∧
      (∀ (st : SysState) (gi : Nat) (ok : Bool) (n : Nat)
        (hs : GattHandleTable),
        ok = false ∨ n ≠ 4 →
        gatts_event_handler st gi (.CREAT_ATTR_TAB ok n hs) = (st, noOutput)) := by
  intro tr hv hb
  have h := c8_trace_invariant tr initial_state rfl rfl hv hb
  refine ⟨h.2.1, h.2.2, ?_⟩
  intro st gi ok n hs hbad
  by_cases hok : ok = false
  · simp [gatts_event_handler, hok]
  · rcases hbad with h | h
    · exact absurd h hok
    · simp [gatts_event_handler, hok, h]

/-- Witness for claim C8 at a concrete trace: after an attribute-table
event with handle count 3, a connect, a CCCD subscribe and a poll transmit
nothing, and the bad event itself is a no-op. -/
theorem claim_C8_bad_attr_tab_witness :
    (runTrace
        [SysEvent.gatts 1 (.CREAT_ATTR_TAB true 3 ⟨1, 2, 3, 4⟩),
         SysEvent.gatts 1 (.CONNECT 6),
         SysEvent.gatts 1 (.WRITE ⟨0, 2, [0x01, 0x00], true⟩),
         SysEvent.poll 7 .ESP_OK]
        initial_state).2 = [] ∧
    gatts_event_handler initial_state 1 (.CREAT_ATTR_TAB true 3 ⟨1, 2, 3, 4⟩) =
      (initial_state, noOutput) := by
  have h := claim_C8_bad_attr_tab
    [SysEvent.gatts 1 (.CREAT_ATTR_TAB true 3 ⟨1, 2, 3, 4⟩),
     SysEvent.gatts 1 (.CONNECT 6),
     SysEvent.gatts 1 (.WRITE ⟨0, 2, [0x01, 0x00], true⟩),
     SysEvent.poll 7 .ESP_OK] (by decide) (by decide)
  exact ⟨h.2.1, h.2.2 initial_state 1 true 3 ⟨1, 2, 3, 4⟩ (Or.inr (by decide))⟩

end BleEncoder
